import Mathlib

/-!
Verification of the MQTT Remote Desktop Controller dispatch core
(`mqttrdc/mqtt_controller.py`): a shallow embedding of the message
validation and dispatch logic (`MQTTController.handle_message`,
`MQTTController.on_message`), the four JSON command schemas, the
volume/mute device actions and the status reporter (`update_status`,
`status`), together with theorems about them.

External collaborators (the ALSA mixer, the keyboard controller and the
paho MQTT client) are modelled as explicit state and an event trace:
device state is a record, every side-effecting call appends an event,
and the outcome of a `mqttc.publish` call is an input oracle.
-/

namespace Mqttrdc

/-- A parsed JSON value, as produced by Python's `json.loads`.
JSON numbers are split into integers (`int`) and numbers with a nonzero
fractional part (`nonIntNum`, e.g. `50.5`); the latter are rejected by
every integer schema, so their numeric value is irrelevant here. -/
inductive Json where
  | null : Json
  | bool (b : Bool) : Json
  | int (n : Int) : Json
  | nonIntNum : Json
  | str (s : String) : Json
  | arr (xs : List Json) : Json
  | obj (kvs : List (String × Json)) : Json

/-- The Python exception classes that the dispatch code can raise and that
`on_message` discriminates on: `UnicodeDecodeError` (payload bytes are not
UTF-8), `json.JSONDecodeError` (text is not parseable JSON),
`jsonschema.ValidationError`, `ValueError` (unrecognized command, and also
what `mqttc.publish` may raise), and `TypeError` (e.g. `"volume" in 5`). -/
inductive PyErr where
  | unicodeDecodeError : PyErr
  | jsonDecodeError : PyErr
  | validationError : PyErr
  | valueError : PyErr
  | typeError : PyErr
deriving DecidableEq

/-- The raw MQTT message payload, abstracted over the byte/text level:
either bytes that fail UTF-8 decoding, UTF-8 text that fails `json.loads`,
or a successfully parsed JSON value. -/
inductive Payload where
  | invalidUtf8 : Payload
  | invalidJson : Payload
  | parsed (j : Json) : Payload

/-- Outcome of a single `mqttc.publish` call: the returned `rc` is
`MQTT_ERR_SUCCESS` (accepted) or a failure code (rejected), or the call
raises `ValueError`. -/
inductive PublishOutcome where
  | accepted : PublishOutcome
  | rejected : PublishOutcome
  | raisesValueError : PublishOutcome
deriving DecidableEq

/-- Observable side effects of the controller, in call order:
`setVolumeDev v` is `audio_mixer.setvolume(v)`, `setMuteDev b` is
`audio_mixer.setmute(b)`, `keyPress`/`keyRelease` are
`keyboard.press(Key.space)`/`keyboard.release(Key.space)`,
`publishCall topic payload outcome` is one `mqttc.publish` attempt, and
the `log*` events record the logging calls. -/
inductive Event where
  | setVolumeDev (v : Int) : Event
  | setMuteDev (b : Bool) : Event
  | keyPress : Event
  | keyRelease : Event
  | publishCall (topic : String) (payload : Json) (outcome : PublishOutcome) : Event
  | logInfo : Event
  | logWarning : Event
  | logError (e : PyErr) : Event

/-- The durable state held by the external audio device (ALSA mixer):
`volume` is `getvolume()[0]`, `muted` is `bool(getmute()[0])`. -/
structure DeviceState where
  volume : Int
  muted : Bool

/-- The configuration fields of `MQTTControllerManager` that the dispatch
core reads: `volume_step` (`VOLUME_STEP`, validated on load to 1..100)
and `status_topic` (`MQTT_STATUS_TOPIC`). -/
structure Config where
  volume_step : Int
  status_topic : String

/-- The state threaded through a dispatch: device state plus the trace of
emitted events. -/
structure St where
  dev : DeviceState
  events : List Event

/-- Append one event to the trace. -/
def pushEvent (s : St) (e : Event) : St :=
  ⟨s.dev, s.events ++ [e]⟩

/-- Python substring test: `needle in hay` for strings. -/
def strContains (hay needle : String) : Bool :=
  hay.data.tails.any (fun t => needle.data.isPrefixOf t)

/-- Python equality between a JSON value and a string: `v == "x"` is true
exactly when `v` is the string `"x"` (a non-string never equals a string). -/
def jsonEqStr (v : Json) (s : String) : Bool :=
  match v with
  | .str t => t == s
  | _ => false

/-- Lookup in a parsed JSON object. `json.loads` builds a Python dict, where
a duplicated key keeps the last occurrence, so lookup takes the last binding. -/
def dictGet : List (String × Json) → String → Option Json
  | [], _ => none
  | kv :: rest, key =>
    match dictGet rest key with
    | some v => some v
    | none => if kv.1 == key then some kv.2 else none

/-- Python subscription `payload[key]` on a parsed JSON value: defined only
on objects (the dispatch code only subscripts after schema validation has
established the value is an object with the key present). -/
def getItem (j : Json) (key : String) : Option Json :=
  match j with
  | .obj kvs => dictGet kvs key
  | _ => none

/-- Python membership test `key in payload` on a parsed JSON value:
key lookup on a dict, substring test on a string, element equality on a
list; `TypeError` on non-container values (`None`, booleans, numbers). -/
def pyContains (j : Json) (key : String) : Except PyErr Bool :=
  match j with
  | .obj kvs => .ok (kvs.any (fun kv => kv.1 == key))
  | .str s => .ok (strContains s key)
  | .arr xs => .ok (xs.any (fun x => jsonEqStr x key))
  | _ => .error .typeError

/-- The JSON Schema `type` values used by the four command schemas. -/
inductive JsonType where
  | object : JsonType
  | integer : JsonType
  | string : JsonType
  | boolean : JsonType

/-- A property schema: a `type` plus optional `minimum`, `maximum` and
`enum` keywords (the enums used here list only strings). -/
structure PropertySchema where
  type : JsonType
  minimum : Option Int
  maximum : Option Int
  enum : Option (List String)

/-- A top-level command schema: `{"type": "object", "properties": {key: prop}}`. -/
structure Schema where
  type : JsonType
  propKey : String
  prop : PropertySchema

/-- JSON Schema `type` check. Following `jsonschema`, a Python `bool` is not
an `integer` (despite `bool` subclassing `int`), and a number with a nonzero
fractional part is not an `integer`. -/
def checkType (t : JsonType) (v : Json) : Bool :=
  match t, v with
  | .object, .obj _ => true
  | .integer, .int _ => true
  | .string, .str _ => true
  | .boolean, .bool _ => true
  | _, _ => false

/-- JSON Schema `minimum` keyword on the values reaching it here. -/
def checkMin (m : Option Int) (v : Json) : Bool :=
  match m, v with
  | some lo, .int n => decide (lo ≤ n)
  | _, _ => true

/-- JSON Schema `maximum` keyword on the values reaching it here. -/
def checkMax (m : Option Int) (v : Json) : Bool :=
  match m, v with
  | some hi, .int n => decide (n ≤ hi)
  | _, _ => true

/-- JSON Schema `enum` keyword for string enums: a non-string instance is
equal to no listed string, hence fails. -/
def checkEnum (e : Option (List String)) (v : Json) : Bool :=
  match e, v with
  | some es, .str s => es.contains s
  | some _, _ => false
  | none, _ => true

/-- Validate one property value against its property schema. -/
def checkProperty (ps : PropertySchema) (v : Json) : Bool :=
  checkType ps.type v && checkMin ps.minimum v && checkMax ps.maximum v
    && checkEnum ps.enum v

/-- `jsonschema.validate` for the schemas used here: the instance must have
the schema's top type, and if the named property is present its value must
satisfy the property schema (`properties` does not require presence). -/
def validate (j : Json) (schema : Schema) : Bool :=
  checkType schema.type j &&
    (match getItem j schema.propKey with
     | some v => checkProperty schema.prop v
     | none => true)

/-- `MQTTController.volume_schema`:
`{"type": "object", "properties": {"volume": {"type": "integer", "minimum": 0, "maximum": 100}}}`. -/
def volume_schema : Schema :=
  ⟨.object, "volume", ⟨.integer, some 0, some 100, none⟩⟩

/-- `MQTTController.volume_ctrl_schema`:
`{"type": "object", "properties": {"volumeCtrl": {"type": "string", "enum": ["+", "-"]}}}`. -/
def volume_ctrl_schema : Schema :=
  ⟨.object, "volumeCtrl", ⟨.string, none, none, some ["+", "-"]⟩⟩

/-- `MQTTController.mute_schema`:
`{"type": "object", "properties": {"mute": {"type": "boolean"}}}`. -/
def mute_schema : Schema :=
  ⟨.object, "mute", ⟨.boolean, none, none, none⟩⟩

/-- `MQTTController.toggle_schema`:
`{"type": "object", "properties": {"toggle": {"type": "string", "enum": ["mute", "pause"]}}}`. -/
def toggle_schema : Schema :=
  ⟨.object, "toggle", ⟨.string, none, none, some ["mute", "pause"]⟩⟩

/-- The `volume` property getter: `audio_mixer.getvolume()[0]`. -/
def volume_get (s : St) : Int :=
  s.dev.volume

/-- The `mute` property getter: `bool(audio_mixer.getmute()[0])`. -/
def mute_get (s : St) : Bool :=
  s.dev.muted

/-- `MQTTController.status`: `{"volume": self.volume, "mute": self.mute}`.
No play/pause field, by design. -/
def status (s : St) : Json :=
  .obj [("volume", .int (volume_get s)), ("mute", .bool (mute_get s))]

/-- One `mqttc.publish` call: returns `rc` (`0` is `MQTT_ERR_SUCCESS`) or
raises `ValueError`. -/
def mqtt_publish (pub : PublishOutcome) : Except PyErr Int :=
  match pub with
  | .accepted => .ok 0
  | .rejected => .ok 1
  | .raisesValueError => .error .valueError

/-- `MQTTController.update_status`: publish the current status JSON on the
status topic inside `try`, log info when `rc == MQTT_ERR_SUCCESS`, log a
warning when the request is rejected, and catch a `ValueError` raised by
`publish` with a warning. -/
def update_status (cfg : Config) (pub : PublishOutcome) (s : St) : St :=
  let s1 := pushEvent s (.publishCall cfg.status_topic (status s) pub)
  match mqtt_publish pub with
  | .ok rc => if rc == 0 then pushEvent s1 .logInfo else pushEvent s1 .logWarning
  | .error _ => pushEvent s1 .logWarning

/-- The `volume` property setter: `audio_mixer.setvolume(value)` followed by
`update_status()`. -/
def set_volume (cfg : Config) (pub : PublishOutcome) (value : Int) (s : St) : St :=
  update_status cfg pub ⟨⟨value, s.dev.muted⟩, s.events ++ [.setVolumeDev value]⟩

/-- `MQTTController.volume_up`: `self.volume = min(self.volume + self.config.volume_step, 100)`. -/
def volume_up (cfg : Config) (pub : PublishOutcome) (s : St) : St :=
  set_volume cfg pub (min (volume_get s + cfg.volume_step) 100) s

/-- `MQTTController.volume_down`: `self.volume = max(self.volume - self.config.volume_step, 0)`. -/
def volume_down (cfg : Config) (pub : PublishOutcome) (s : St) : St :=
  set_volume cfg pub (max (volume_get s - cfg.volume_step) 0) s

/-- The `mute` property setter: `audio_mixer.setmute(value)` followed by
`update_status()`. -/
def set_mute (cfg : Config) (pub : PublishOutcome) (value : Bool) (s : St) : St :=
  update_status cfg pub ⟨⟨s.dev.volume, value⟩, s.events ++ [.setMuteDev value]⟩

/-- `MQTTController.toggle_mute`: `self.mute = not self.mute`. -/
def toggle_mute (cfg : Config) (pub : PublishOutcome) (s : St) : St :=
  set_mute cfg pub (!(mute_get s)) s

/-- `MQTTController.toggle_pause`: press then release the space key; no
status update. -/
def toggle_pause (s : St) : St :=
  ⟨s.dev, s.events ++ [.keyPress, .keyRelease]⟩

/-- `MQTTController.handle_message`: decode the payload, check the keys
`volume`, `volumeCtrl`, `mute`, `toggle` in source order, validate against
the matching schema and run the action; raise `ValueError` when no key
matches. The `.error .typeError` fallbacks after a successful validation
are unreachable (validation guarantees the shapes they exclude). -/
def handle_message (cfg : Config) (pub : PublishOutcome) (msg : Payload)
    (s : St) : Except PyErr St :=
  match msg with
  | .invalidUtf8 => .error .unicodeDecodeError
  | .invalidJson => .error .jsonDecodeError
  | .parsed payload =>
    match pyContains payload "volume" with
    | .error e => .error e
    | .ok true =>
      if validate payload volume_schema then
        match getItem payload "volume" with
        | some (.int v) => .ok (set_volume cfg pub v s)
        | _ => .error .typeError
      else .error .validationError
    | .ok false =>
      match pyContains payload "volumeCtrl" with
      | .error e => .error e
      | .ok true =>
        if validate payload volume_ctrl_schema then
          match getItem payload "volumeCtrl" with
          | some v =>
            .ok (if jsonEqStr v "+" then volume_up cfg pub s
                 else volume_down cfg pub s)
          | none => .error .typeError
        else .error .validationError
      | .ok false =>
        match pyContains payload "mute" with
        | .error e => .error e
        | .ok true =>
          if validate payload mute_schema then
            match getItem payload "mute" with
            | some (.bool b) => .ok (set_mute cfg pub b s)
            | _ => .error .typeError
          else .error .validationError
        | .ok false =>
          match pyContains payload "toggle" with
          | .error e => .error e
          | .ok true =>
            if validate payload toggle_schema then
              match getItem payload "toggle" with
              | some v =>
                .ok (if jsonEqStr v "mute" then toggle_mute cfg pub s
                     else toggle_pause s)
              | none => .error .typeError
            else .error .validationError
          | .ok false => .error .valueError

/-- `MQTTController.on_message`: call `handle_message` inside `try` and
catch `UnicodeDecodeError`, `JSONDecodeError`, `ValidationError`,
`ValueError` and finally `Exception`, each clause logging the error. -/
def on_message (cfg : Config) (pub : PublishOutcome) (msg : Payload)
    (s : St) : Except PyErr St :=
  match handle_message cfg pub msg s with
  | .ok s1 => .ok s1
  | .error .unicodeDecodeError => .ok (pushEvent s (.logError .unicodeDecodeError))
  | .error .jsonDecodeError => .ok (pushEvent s (.logError .jsonDecodeError))
  | .error .validationError => .ok (pushEvent s (.logError .validationError))
  | .error .valueError => .ok (pushEvent s (.logError .valueError))
  | .error e => .ok (pushEvent s (.logError e))

/-- Whether an event is a publish attempt (a call to `mqttc.publish`). -/
def Event.isPublish : Event → Bool
  | .publishCall .. => true
  | _ => false

/-- Whether an event is a device action or publish: a volume write, a mute
write, a key press/release, or a publish attempt. Log events are not actions. -/
def Event.isAction : Event → Bool
  | .setVolumeDev _ => true
  | .setMuteDev _ => true
  | .keyPress => true
  | .keyRelease => true
  | .publishCall .. => true
  | _ => false

/-- Number of publish attempts recorded in the trace. -/
def publishCount (s : St) : Nat :=
  (s.events.filter Event.isPublish).length

/-- The device-action and publish events of the trace. -/
def actionEvents (s : St) : List Event :=
  s.events.filter Event.isAction

/-- The keys of a JSON object (empty for non-objects). -/
def jsonKeys : Json → List String
  | .obj kvs => kvs.map (fun kv => kv.1)
  | _ => []

/-- Whether a JSON value is an object. -/
def Json.isObj : Json → Bool
  | .obj _ => true
  | _ => false

/-- `update_status` never touches the device state. -/
theorem update_status_dev (cfg : Config) (pub : PublishOutcome) (s : St) :
    (update_status cfg pub s).dev = s.dev := by
  cases pub <;> rfl

/-- `update_status` makes exactly one publish attempt. -/
theorem publishCount_update_status (cfg : Config) (pub : PublishOutcome) (s : St) :
    publishCount (update_status cfg pub s) = publishCount s + 1 := by
  cases pub <;>
    simp [update_status, mqtt_publish, pushEvent, publishCount, Event.isPublish]

/-- The volume setter stores exactly the given value. -/
theorem set_volume_volume (cfg : Config) (pub : PublishOutcome) (v : Int) (s : St) :
    volume_get (set_volume cfg pub v s) = v := by
  simp [set_volume, volume_get, update_status_dev]

/-- The volume setter makes exactly one publish attempt. -/
theorem publishCount_set_volume (cfg : Config) (pub : PublishOutcome) (v : Int) (s : St) :
    publishCount (set_volume cfg pub v s) = publishCount s + 1 := by
  unfold set_volume
  rw [publishCount_update_status]
  simp [publishCount, Event.isPublish]

/-- The mute setter makes exactly one publish attempt. -/
theorem publishCount_set_mute (cfg : Config) (pub : PublishOutcome) (b : Bool) (s : St) :
    publishCount (set_mute cfg pub b s) = publishCount s + 1 := by
  unfold set_mute
  rw [publishCount_update_status]
  simp [publishCount, Event.isPublish]

/-- A dict lookup misses when no binding carries the key. -/
theorem dictGet_eq_none (kvs : List (String × Json)) (k : String)
    (h : kvs.all (fun kv => !(kv.1 == k)) = true) : dictGet kvs k = none := by
  induction kvs with
  | nil => rfl
  | cons kv rest ih =>
    simp only [List.all_cons, Bool.and_eq_true, Bool.not_eq_true'] at h
    simp [dictGet, ih h.2, h.1]

/-- When no uncaught exception occurs, `on_message` wraps the error of
`handle_message` into a single log event and leaves everything else alone. -/
theorem onMessage_of_error (cfg : Config) (pub : PublishOutcome) (msg : Payload)
    (s : St) (e : PyErr) (h : handle_message cfg pub msg s = .error e) :
    on_message cfg pub msg s = .ok (pushEvent s (.logError e)) := by
  cases e <;> simp [on_message, h]

/-- Only an in-range integer satisfies the `volume` property schema. -/
theorem checkProperty_volume_int (w : Json)
    (h : checkProperty volume_schema.prop w = true) : ∃ n, w = Json.int n := by
  cases w <;> simp [checkProperty, checkType, volume_schema] at h ⊢

/-- A run of `handle_message` on an object whose first-priority key is
`volume` and whose `volume` value passes the volume schema: the volume
setter runs with exactly that value. -/
theorem handle_message_obj_volume_ok (cfg : Config) (pub : PublishOutcome) (s : St)
    (kvs : List (String × Json)) (n : Int)
    (hmem : kvs.any (fun kv => kv.1 == "volume") = true)
    (hget : dictGet kvs "volume" = some (.int n))
    (hcp : checkProperty volume_schema.prop (.int n) = true) :
    handle_message cfg pub (.parsed (.obj kvs)) s = .ok (set_volume cfg pub n s) := by
  have h1 : pyContains (.obj kvs) "volume" = .ok true := by
    simp [pyContains, hmem]
  have h2 : validate (.obj kvs) volume_schema = true := by
    simp [validate, getItem, hget, checkType, volume_schema]
    simpa [volume_schema] using hcp
  simp only [handle_message, h1, h2, if_true, getItem, hget]

/-- A run of `handle_message` on an object whose first-priority key is
`volume` and whose `volume` value fails the volume schema: a validation
error, whatever else the object contains. -/
theorem handle_message_obj_volume_err (cfg : Config) (pub : PublishOutcome) (s : St)
    (kvs : List (String × Json)) (w : Json)
    (hmem : kvs.any (fun kv => kv.1 == "volume") = true)
    (hget : dictGet kvs "volume" = some w)
    (hcp : checkProperty volume_schema.prop w = false) :
    handle_message cfg pub (.parsed (.obj kvs)) s = .error .validationError := by
  have h1 : pyContains (.obj kvs) "volume" = .ok true := by
    simp [pyContains, hmem]
  have h2 : validate (.obj kvs) volume_schema = false := by
    simp [validate, getItem, hget, checkType, volume_schema]
    simpa [volume_schema] using hcp
  simp only [handle_message, h1, h2, if_false]
  simp

/-- A run of `handle_message` on an object without a `volume` key whose
next key in priority order is `volumeCtrl`: the outcome is decided by the
schema check on the `volumeCtrl` value alone. -/
theorem handle_message_obj_volumeCtrl (cfg : Config) (pub : PublishOutcome)
    (s : St) (kvs : List (String × Json)) (w : Json)
    (h0 : kvs.any (fun kv => kv.1 == "volume") = false)
    (h1 : kvs.any (fun kv => kv.1 == "volumeCtrl") = true)
    (hget : dictGet kvs "volumeCtrl" = some w) :
    handle_message cfg pub (.parsed (.obj kvs)) s =
      if checkProperty volume_ctrl_schema.prop w then
        .ok (if jsonEqStr w "+" then volume_up cfg pub s else volume_down cfg pub s)
      else .error .validationError := by
  have c0 : pyContains (.obj kvs) "volume" = .ok false := by
    simp [pyContains, h0]
  have c1 : pyContains (.obj kvs) "volumeCtrl" = .ok true := by
    simp [pyContains, h1]
  have c2 : getItem (.obj kvs) "volumeCtrl" = some w := by
    simp [getItem, hget]
  have hval : validate (.obj kvs) volume_ctrl_schema
      = checkProperty volume_ctrl_schema.prop w := by
    simp [validate, getItem, hget, checkType, volume_ctrl_schema]
  simp only [handle_message, c0, c1, c2, hval]

/-- Only a boolean satisfies the `mute` property schema. -/
theorem checkProperty_mute_bool (w : Json)
    (h : checkProperty mute_schema.prop w = true) : ∃ b, w = Json.bool b := by
  cases w <;> simp [checkProperty, checkType, mute_schema] at h ⊢

/-- A run of `handle_message` on an object without `volume` or `volumeCtrl`
keys whose next key in priority order is `mute`, bound to a boolean: the
mute setter runs with exactly that boolean. -/
theorem handle_message_obj_mute_ok (cfg : Config) (pub : PublishOutcome)
    (s : St) (kvs : List (String × Json)) (b : Bool)
    (h0 : kvs.any (fun kv => kv.1 == "volume") = false)
    (h1 : kvs.any (fun kv => kv.1 == "volumeCtrl") = false)
    (h2 : kvs.any (fun kv => kv.1 == "mute") = true)
    (hget : dictGet kvs "mute" = some (.bool b)) :
    handle_message cfg pub (.parsed (.obj kvs)) s = .ok (set_mute cfg pub b s) := by
  have c0 : pyContains (.obj kvs) "volume" = .ok false := by
    simp [pyContains, h0]
  have c1 : pyContains (.obj kvs) "volumeCtrl" = .ok false := by
    simp [pyContains, h1]
  have c2 : pyContains (.obj kvs) "mute" = .ok true := by
    simp [pyContains, h2]
  have c3 : getItem (.obj kvs) "mute" = some (.bool b) := by
    simp [getItem, hget]
  have hval : validate (.obj kvs) mute_schema = true := by
    simp [validate, getItem, hget, checkType, checkProperty, checkMin,
      checkMax, checkEnum, mute_schema]
  simp only [handle_message, c0, c1, c2, c3, hval, if_true]

/-- A run of `handle_message` on an object without `volume` or `volumeCtrl`
keys whose next key in priority order is `mute`, bound to a value failing
the mute schema: a validation error, whatever else the object contains. -/
theorem handle_message_obj_mute_err (cfg : Config) (pub : PublishOutcome)
    (s : St) (kvs : List (String × Json)) (w : Json)
    (h0 : kvs.any (fun kv => kv.1 == "volume") = false)
    (h1 : kvs.any (fun kv => kv.1 == "volumeCtrl") = false)
    (h2 : kvs.any (fun kv => kv.1 == "mute") = true)
    (hget : dictGet kvs "mute" = some w)
    (hcp : checkProperty mute_schema.prop w = false) :
    handle_message cfg pub (.parsed (.obj kvs)) s = .error .validationError := by
  have c0 : pyContains (.obj kvs) "volume" = .ok false := by
    simp [pyContains, h0]
  have c1 : pyContains (.obj kvs) "volumeCtrl" = .ok false := by
    simp [pyContains, h1]
  have c2 : pyContains (.obj kvs) "mute" = .ok true := by
    simp [pyContains, h2]
  have hval : validate (.obj kvs) mute_schema = false := by
    simp [validate, getItem, hget, checkType, mute_schema]
    simpa [mute_schema] using hcp
  simp only [handle_message, c0, c1, c2, hval, if_false]
  simp

/-- A run of `handle_message` on an object whose only recognized key is
`toggle`: the outcome is decided by the schema check on the `toggle` value
alone. -/
theorem handle_message_obj_toggle (cfg : Config) (pub : PublishOutcome)
    (s : St) (kvs : List (String × Json)) (w : Json)
    (h0 : kvs.any (fun kv => kv.1 == "volume") = false)
    (h1 : kvs.any (fun kv => kv.1 == "volumeCtrl") = false)
    (h2 : kvs.any (fun kv => kv.1 == "mute") = false)
    (h3 : kvs.any (fun kv => kv.1 == "toggle") = true)
    (hget : dictGet kvs "toggle" = some w) :
    handle_message cfg pub (.parsed (.obj kvs)) s =
      if checkProperty toggle_schema.prop w then
        .ok (if jsonEqStr w "mute" then toggle_mute cfg pub s else toggle_pause s)
      else .error .validationError := by
  have c0 : pyContains (.obj kvs) "volume" = .ok false := by
    simp [pyContains, h0]
  have c1 : pyContains (.obj kvs) "volumeCtrl" = .ok false := by
    simp [pyContains, h1]
  have c2 : pyContains (.obj kvs) "mute" = .ok false := by
    simp [pyContains, h2]
  have c3 : pyContains (.obj kvs) "toggle" = .ok true := by
    simp [pyContains, h3]
  have c4 : getItem (.obj kvs) "toggle" = some w := by
    simp [getItem, hget]
  have hval : validate (.obj kvs) toggle_schema
      = checkProperty toggle_schema.prop w := by
    simp [validate, getItem, hget, checkType, toggle_schema]
  simp only [handle_message, c0, c1, c2, c3, c4, hval]

/-- A concrete controller configuration used to instantiate theorems with
hypotheses: volume step 10, an arbitrary status topic. -/
def cfg0 : Config := ⟨10, "mqtt/status"⟩

/-- A concrete starting state used to instantiate theorems with hypotheses:
volume 50, unmuted, empty trace. -/
def st0 : St := ⟨⟨50, false⟩, []⟩

/-- C1: for every raw message payload, the dispatch entry point `on_message`
returns normally: every failure raised by `handle_message` — decoding, JSON
parsing, schema validation, unrecognized commands, or any other exception —
is caught by one of its `except` clauses. -/
theorem on_message_never_propagates (cfg : Config) (pub : PublishOutcome)
    (msg : Payload) (s : St) :
    ∃ s1, on_message cfg pub msg s = .ok s1 := by
  cases hm : handle_message cfg pub msg s with
  | ok s1 => exact ⟨s1, by simp [on_message, hm]⟩
  | error e => exact ⟨_, onMessage_of_error cfg pub msg s e hm⟩

/-- C4: `volume_up` sets the device volume to `min(current + step, 100)` and
`volume_down` to `max(current - step, 0)`; for a current volume in [0,100]
and a step in [1,100] the result stays in [0,100], and the clamping is exact
at the boundaries (95 + 10 → 100, 5 - 10 → 0). -/
theorem volume_step_clamping (cfg : Config) (pub : PublishOutcome) (s : St)
    (h0 : 0 ≤ volume_get s) (h1 : volume_get s ≤ 100)
    (h2 : 1 ≤ cfg.volume_step) (h3 : cfg.volume_step ≤ 100) :
    volume_get (volume_up cfg pub s) = min (volume_get s + cfg.volume_step) 100
    ∧ volume_get (volume_down cfg pub s) = max (volume_get s - cfg.volume_step) 0
    ∧ 0 ≤ volume_get (volume_up cfg pub s)
    ∧ volume_get (volume_up cfg pub s) ≤ 100
    ∧ 0 ≤ volume_get (volume_down cfg pub s)
    ∧ volume_get (volume_down cfg pub s) ≤ 100
    ∧ volume_get (volume_up ⟨10, "mqtt/status"⟩ .accepted ⟨⟨95, false⟩, []⟩) = 100
    ∧ volume_get (volume_down ⟨10, "mqtt/status"⟩ .accepted ⟨⟨5, false⟩, []⟩) = 0 := by
  have hup : volume_get (volume_up cfg pub s)
      = min (volume_get s + cfg.volume_step) 100 := by
    simp [volume_up, set_volume_volume]
  have hdn : volume_get (volume_down cfg pub s)
      = max (volume_get s - cfg.volume_step) 0 := by
    simp [volume_down, set_volume_volume]
  refine ⟨hup, hdn, ?_, ?_, ?_, ?_, by decide, by decide⟩
  · rw [hup]; omega
  · rw [hup]; omega
  · rw [hdn]; omega
  · rw [hdn]; omega

/-- C4 witness: the boundary instances at volume 95 and 5 with step 10. -/
theorem volume_step_clamping_witness :
    volume_get (volume_up cfg0 .accepted ⟨⟨95, false⟩, []⟩) = 100 :=
  (volume_step_clamping cfg0 .accepted ⟨⟨95, false⟩, []⟩ (by decide) (by decide)
    (by decide) (by decide)).2.2.2.2.2.2.1

/-- C6: executing `Toggle(Pause)` (`{"toggle": "pause"}`) only presses the
key and makes no publish attempt, while every other successfully executed
command — `{"volume": v}`, `{"volumeCtrl": "+"}`, `{"volumeCtrl": "-"}`,
`{"mute": b}`, `{"toggle": "mute"}` — makes exactly one publish attempt. -/
theorem publish_exactly_once_except_pause (cfg : Config) (pub : PublishOutcome)
    (s : St) (v : Int) (b : Bool) (hv0 : 0 ≤ v) (hv1 : v ≤ 100) :
    handle_message cfg pub (.parsed (.obj [("toggle", .str "pause")])) s
      = .ok (toggle_pause s)
    ∧ publishCount (toggle_pause s) = publishCount s
    ∧ handle_message cfg pub (.parsed (.obj [("volume", .int v)])) s
      = .ok (set_volume cfg pub v s)
    ∧ publishCount (set_volume cfg pub v s) = publishCount s + 1
    ∧ handle_message cfg pub (.parsed (.obj [("volumeCtrl", .str "+")])) s
      = .ok (volume_up cfg pub s)
    ∧ publishCount (volume_up cfg pub s) = publishCount s + 1
    ∧ handle_message cfg pub (.parsed (.obj [("volumeCtrl", .str "-")])) s
      = .ok (volume_down cfg pub s)
    ∧ publishCount (volume_down cfg pub s) = publishCount s + 1
    ∧ handle_message cfg pub (.parsed (.obj [("mute", .bool b)])) s
      = .ok (set_mute cfg pub b s)
    ∧ publishCount (set_mute cfg pub b s) = publishCount s + 1
    ∧ handle_message cfg pub (.parsed (.obj [("toggle", .str "mute")])) s
      = .ok (toggle_mute cfg pub s)
    ∧ publishCount (toggle_mute cfg pub s) = publishCount s + 1 := by
  refine ⟨rfl, ?_, ?_, publishCount_set_volume cfg pub v s, rfl,
    publishCount_set_volume cfg pub _ s, rfl, publishCount_set_volume cfg pub _ s,
    rfl, publishCount_set_mute cfg pub b s, rfl, publishCount_set_mute cfg pub _ s⟩
  · simp [toggle_pause, publishCount, Event.isPublish]
  · exact handle_message_obj_volume_ok cfg pub s _ v rfl rfl
      (by simp [checkProperty, checkType, checkMin, checkMax, checkEnum,
        volume_schema, hv0, hv1])

/-- C6 witness: the publish counts at the concrete state `st0`, volume 50. -/
theorem publish_exactly_once_except_pause_witness :
    publishCount (set_volume cfg0 .accepted 50 st0) = publishCount st0 + 1
    ∧ publishCount (toggle_pause st0) = publishCount st0 :=
  ⟨(publish_exactly_once_except_pause cfg0 .accepted st0 50 true
      (by decide) (by decide)).2.2.2.1,
   (publish_exactly_once_except_pause cfg0 .accepted st0 50 true
      (by decide) (by decide)).2.1⟩

/-- C7: for every integer v in [0,100], executing `{"volume": v}` runs the
volume setter with exactly v, and reading the volume afterwards yields v. -/
theorem set_volume_round_trip (cfg : Config) (pub : PublishOutcome) (s : St)
    (v : Int) (hv0 : 0 ≤ v) (hv1 : v ≤ 100) :
    handle_message cfg pub (.parsed (.obj [("volume", .int v)])) s
      = .ok (set_volume cfg pub v s)
    ∧ volume_get (set_volume cfg pub v s) = v :=
  ⟨handle_message_obj_volume_ok cfg pub s _ v rfl rfl
      (by simp [checkProperty, checkType, checkMin, checkMax, checkEnum,
        volume_schema, hv0, hv1]),
   set_volume_volume cfg pub v s⟩

/-- C7 witness: the round trip at v = 50. -/
theorem set_volume_round_trip_witness :
    handle_message cfg0 .accepted (.parsed (.obj [("volume", .int 50)])) st0
      = .ok (set_volume cfg0 .accepted 50 st0)
    ∧ volume_get (set_volume cfg0 .accepted 50 st0) = 50 :=
  set_volume_round_trip cfg0 .accepted st0 50 (by decide) (by decide)

/-- C2: for every JSON object payload, the first key in the fixed priority
order `volume`, `volumeCtrl`, `mute`, `toggle` that is present selects the
command: whatever other keys the object carries and wherever the selected
key sits, the payload behaves exactly like the singleton object holding
only the selected key's binding. In particular `{"volume": 50, "mute":
true}` runs only the volume setter with 50, `{"volumeCtrl": "+", "mute":
true}` runs only `volume_up`, and `{"toggle": "mute", "mute": false}` runs
the mute setter (key priority, not payload order, decides). -/
theorem handle_message_key_priority (cfg : Config) (pub : PublishOutcome) (s : St)
    (kvs : List (String × Json)) (w : Json) :
    (kvs.any (fun kv => kv.1 == "volume") = true →
      dictGet kvs "volume" = some w →
      handle_message cfg pub (.parsed (.obj kvs)) s
        = handle_message cfg pub (.parsed (.obj [("volume", w)])) s)
    ∧ (kvs.any (fun kv => kv.1 == "volume") = false →
       kvs.any (fun kv => kv.1 == "volumeCtrl") = true →
       dictGet kvs "volumeCtrl" = some w →
       handle_message cfg pub (.parsed (.obj kvs)) s
         = handle_message cfg pub (.parsed (.obj [("volumeCtrl", w)])) s)
    ∧ (kvs.any (fun kv => kv.1 == "volume") = false →
       kvs.any (fun kv => kv.1 == "volumeCtrl") = false →
       kvs.any (fun kv => kv.1 == "mute") = true →
       dictGet kvs "mute" = some w →
       handle_message cfg pub (.parsed (.obj kvs)) s
         = handle_message cfg pub (.parsed (.obj [("mute", w)])) s)
    ∧ (kvs.any (fun kv => kv.1 == "volume") = false →
       kvs.any (fun kv => kv.1 == "volumeCtrl") = false →
       kvs.any (fun kv => kv.1 == "mute") = false →
       kvs.any (fun kv => kv.1 == "toggle") = true →
       dictGet kvs "toggle" = some w →
       handle_message cfg pub (.parsed (.obj kvs)) s
         = handle_message cfg pub (.parsed (.obj [("toggle", w)])) s)
    ∧ handle_message cfg pub
        (.parsed (.obj [("volume", .int 50), ("mute", .bool true)])) s
      = .ok (set_volume cfg pub 50 s)
    ∧ handle_message cfg pub
        (.parsed (.obj [("volumeCtrl", .str "+"), ("mute", .bool true)])) s
      = .ok (volume_up cfg pub s)
    ∧ handle_message cfg pub
        (.parsed (.obj [("toggle", .str "mute"), ("mute", .bool false)])) s
      = .ok (set_mute cfg pub false s) := by
  refine ⟨?_, ?_, ?_, ?_, rfl, rfl, rfl⟩
  · intro h1 hw
    cases hcp : checkProperty volume_schema.prop w with
    | true =>
      obtain ⟨n, rfl⟩ := checkProperty_volume_int w hcp
      rw [handle_message_obj_volume_ok cfg pub s kvs n h1 hw hcp,
          handle_message_obj_volume_ok cfg pub s [("volume", Json.int n)] n
            rfl rfl hcp]
    | false =>
      rw [handle_message_obj_volume_err cfg pub s kvs w h1 hw hcp,
          handle_message_obj_volume_err cfg pub s [("volume", w)] w rfl rfl hcp]
  · intro h0 h1 hw
    rw [handle_message_obj_volumeCtrl cfg pub s kvs w h0 h1 hw,
        handle_message_obj_volumeCtrl cfg pub s [("volumeCtrl", w)] w rfl rfl rfl]
  · intro h0 h1 h2 hw
    cases hcp : checkProperty mute_schema.prop w with
    | true =>
      obtain ⟨b, rfl⟩ := checkProperty_mute_bool w hcp
      rw [handle_message_obj_mute_ok cfg pub s kvs b h0 h1 h2 hw,
          handle_message_obj_mute_ok cfg pub s [("mute", Json.bool b)] b
            rfl rfl rfl rfl]
    | false =>
      rw [handle_message_obj_mute_err cfg pub s kvs w h0 h1 h2 hw hcp,
          handle_message_obj_mute_err cfg pub s [("mute", w)] w
            rfl rfl rfl rfl hcp]
  · intro h0 h1 h2 h3 hw
    rw [handle_message_obj_toggle cfg pub s kvs w h0 h1 h2 h3 hw,
        handle_message_obj_toggle cfg pub s [("toggle", w)] w rfl rfl rfl rfl rfl]

/-- C2 witness: `{"volumeCtrl": "+", "mute": true}` behaves exactly like
`{"volumeCtrl": "+"}` (the volumeCtrl priority clause), and
`{"volume": 50, "mute": true}` exactly like `{"volume": 50}` (the volume
priority clause). -/
theorem handle_message_key_priority_witness :
    handle_message cfg0 .accepted
        (.parsed (.obj [("volumeCtrl", Json.str "+"), ("mute", Json.bool true)])) st0
      = handle_message cfg0 .accepted
          (.parsed (.obj [("volumeCtrl", Json.str "+")])) st0
    ∧ handle_message cfg0 .accepted
        (.parsed (.obj [("volume", Json.int 50), ("mute", Json.bool true)])) st0
      = handle_message cfg0 .accepted (.parsed (.obj [("volume", Json.int 50)])) st0 :=
  ⟨(handle_message_key_priority cfg0 .accepted st0
      [("volumeCtrl", Json.str "+"), ("mute", Json.bool true)] (Json.str "+")).2.1
      rfl rfl rfl,
   (handle_message_key_priority cfg0 .accepted st0
      [("volume", Json.int 50), ("mute", Json.bool true)] (Json.int 50)).1
      rfl rfl⟩

/-- C3 counterexample: the payload `[]` parses as a non-object JSON value,
yet `handle_message` raises `ValueError` (unrecognized command), not the
`JSONDecodeError` that stands for `MalformedJsonError`. -/
theorem nonobject_payload_not_malformed_json :
    handle_message cfg0 .accepted (.parsed (.arr [])) st0 = .error .valueError
    ∧ PyErr.valueError ≠ PyErr.jsonDecodeError :=
  ⟨rfl, by decide⟩

/-- C3 (amended): text that is not parseable JSON fails with
`JSONDecodeError` (`MalformedJsonError`); a payload parseable as a
non-object JSON value does not, but always fails with a classified error —
`ValidationError`, `ValueError` (unrecognized command) or `TypeError` — and
no command is executed, `on_message` only logging the error. -/
theorem nonobject_payload_classification (cfg : Config) (pub : PublishOutcome)
    (s : St) (j : Json) (h : j.isObj = false) :
    handle_message cfg pub .invalidJson s = .error .jsonDecodeError
    ∧ on_message cfg pub .invalidJson s
      = .ok (pushEvent s (.logError .jsonDecodeError))
    ∧ ∃ e, handle_message cfg pub (.parsed j) s = .error e
        ∧ (e = .validationError ∨ e = .valueError ∨ e = .typeError)
        ∧ on_message cfg pub (.parsed j) s = .ok (pushEvent s (.logError e)) := by
  refine ⟨rfl, rfl, ?_⟩
  have main : ∃ e, handle_message cfg pub (.parsed j) s = .error e
      ∧ (e = .validationError ∨ e = .valueError ∨ e = .typeError) := by
    cases j with
    | null => exact ⟨.typeError, rfl, Or.inr (Or.inr rfl)⟩
    | bool b => exact ⟨.typeError, rfl, Or.inr (Or.inr rfl)⟩
    | int n => exact ⟨.typeError, rfl, Or.inr (Or.inr rfl)⟩
    | nonIntNum => exact ⟨.typeError, rfl, Or.inr (Or.inr rfl)⟩
    | obj kvs => simp [Json.isObj] at h
    | str t =>
      cases h1 : strContains t "volume" with
      | true =>
        exact ⟨.validationError, by simp [handle_message, pyContains, h1,
          validate, getItem, checkType, volume_schema], Or.inl rfl⟩
      | false =>
        cases h2 : strContains t "volumeCtrl" with
        | true =>
          exact ⟨.validationError, by simp [handle_message, pyContains, h1, h2,
            validate, getItem, checkType, volume_ctrl_schema], Or.inl rfl⟩
        | false =>
          cases h3 : strContains t "mute" with
          | true =>
            exact ⟨.validationError, by simp [handle_message, pyContains, h1, h2,
              h3, validate, getItem, checkType, mute_schema], Or.inl rfl⟩
          | false =>
            cases h4 : strContains t "toggle" with
            | true =>
              exact ⟨.validationError, by simp [handle_message, pyContains, h1,
                h2, h3, h4, validate, getItem, checkType, toggle_schema],
                Or.inl rfl⟩
            | false =>
              exact ⟨.valueError, by simp [handle_message, pyContains, h1, h2,
                h3, h4], Or.inr (Or.inl rfl)⟩
    | arr xs =>
      cases h1 : xs.any (fun x => jsonEqStr x "volume") with
      | true =>
        exact ⟨.validationError, by simp [handle_message, pyContains, h1,
          validate, getItem, checkType, volume_schema], Or.inl rfl⟩
      | false =>
        cases h2 : xs.any (fun x => jsonEqStr x "volumeCtrl") with
        | true =>
          exact ⟨.validationError, by simp [handle_message, pyContains, h1, h2,
            validate, getItem, checkType, volume_ctrl_schema], Or.inl rfl⟩
        | false =>
          cases h3 : xs.any (fun x => jsonEqStr x "mute") with
          | true =>
            exact ⟨.validationError, by simp [handle_message, pyContains, h1, h2,
              h3, validate, getItem, checkType, mute_schema], Or.inl rfl⟩
          | false =>
            cases h4 : xs.any (fun x => jsonEqStr x "toggle") with
            | true =>
              exact ⟨.validationError, by simp [handle_message, pyContains, h1,
                h2, h3, h4, validate, getItem, checkType, toggle_schema],
                Or.inl rfl⟩
            | false =>
              exact ⟨.valueError, by simp [handle_message, pyContains, h1, h2,
                h3, h4], Or.inr (Or.inl rfl)⟩
  obtain ⟨e, he, hclass⟩ := main
  exact ⟨e, he, hclass, onMessage_of_error cfg pub _ s e he⟩

/-- C3 witness: amended classification at the non-object payload `5`. -/
theorem nonobject_payload_classification_witness :
    ∃ e, handle_message cfg0 .accepted (.parsed (.int 5)) st0 = .error e
      ∧ (e = .validationError ∨ e = .valueError ∨ e = .typeError)
      ∧ on_message cfg0 .accepted (.parsed (.int 5)) st0
        = .ok (pushEvent st0 (.logError e)) :=
  (nonobject_payload_classification cfg0 .accepted st0 (.int 5) (by decide)).2.2

/-- C5: whenever `handle_message` fails with any decode error, `on_message`
only logs it: the device state is unchanged and no device action or publish
event is added to the trace. -/
theorem decode_failure_no_action (cfg : Config) (pub : PublishOutcome)
    (msg : Payload) (s : St) (e : PyErr)
    (h : handle_message cfg pub msg s = .error e) :
    on_message cfg pub msg s = .ok (pushEvent s (.logError e))
    ∧ (pushEvent s (.logError e)).dev = s.dev
    ∧ actionEvents (pushEvent s (.logError e)) = actionEvents s := by
  refine ⟨onMessage_of_error cfg pub msg s e h, rfl, ?_⟩
  simp [actionEvents, pushEvent, Event.isAction]

/-- C5 witness: the unrecognized command `{"msg": "hi"}` leaves the state
untouched apart from the error log. -/
theorem decode_failure_no_action_witness :
    on_message cfg0 .accepted (.parsed (.obj [("msg", .str "hi")])) st0
      = .ok (pushEvent st0 (.logError .valueError)) :=
  (decode_failure_no_action cfg0 .accepted (.parsed (.obj [("msg", Json.str "hi")]))
    st0 .valueError rfl).1

/-- C8: `update_status` returns normally for every publish outcome — an
accepted publish logs info, a rejected publish logs a warning, and a
`ValueError` raised by `publish` is caught and logged as a warning; the
device state is never touched and no outcome escalates into a failure. -/
theorem update_status_total (cfg : Config) (pub : PublishOutcome) (s : St) :
    (update_status cfg pub s).dev = s.dev
    ∧ update_status cfg .accepted s =
        pushEvent (pushEvent s
          (.publishCall cfg.status_topic (status s) .accepted)) .logInfo
    ∧ update_status cfg .rejected s =
        pushEvent (pushEvent s
          (.publishCall cfg.status_topic (status s) .rejected)) .logWarning
    ∧ update_status cfg .raisesValueError s =
        pushEvent (pushEvent s
          (.publishCall cfg.status_topic (status s) .raisesValueError)) .logWarning := by
  refine ⟨update_status_dev cfg pub s, rfl, rfl, rfl⟩

/-- C9: every published status snapshot is exactly the object with the two
fields `volume` (the device's current volume) and `mute` (the current mute
flag); no `pause` field exists, and the `volume` field stays in [0,100]
whenever the device volume does. -/
theorem status_snapshot_fields (cfg : Config) (pub : PublishOutcome) (s : St)
    (h0 : 0 ≤ volume_get s) (h1 : volume_get s ≤ 100) :
    status s = .obj [("volume", .int (volume_get s)), ("mute", .bool (mute_get s))]
    ∧ jsonKeys (status s) = ["volume", "mute"]
    ∧ (jsonKeys (status s)).contains "pause" = false
    ∧ getItem (status s) "volume" = some (.int (volume_get s))
    ∧ getItem (status s) "mute" = some (.bool (mute_get s))
    ∧ 0 ≤ volume_get s ∧ volume_get s ≤ 100
    ∧ (update_status cfg pub s).events.filter Event.isPublish =
        s.events.filter Event.isPublish
          ++ [.publishCall cfg.status_topic (status s) pub] := by
  refine ⟨rfl, rfl, rfl, rfl, rfl, h0, h1, ?_⟩
  cases pub <;>
    simp [update_status, mqtt_publish, pushEvent, Event.isPublish]

/-- C9 witness: the snapshot facts at the concrete state `st0`. -/
theorem status_snapshot_fields_witness :
    jsonKeys (status st0) = ["volume", "mute"]
    ∧ (jsonKeys (status st0)).contains "pause" = false :=
  ⟨(status_snapshot_fields cfg0 .accepted st0 (by decide) (by decide)).2.1,
   (status_snapshot_fields cfg0 .accepted st0 (by decide) (by decide)).2.2.1⟩

/-- C10: the payloads `{"volume": true}` and `{"volume": false}` fail schema
validation (a JSON boolean is not an `integer`), so no action executes and
`on_message` only logs the validation error. -/
theorem volume_bool_rejected (cfg : Config) (pub : PublishOutcome) (s : St) :
    handle_message cfg pub (.parsed (.obj [("volume", .bool true)])) s
      = .error .validationError
    ∧ handle_message cfg pub (.parsed (.obj [("volume", .bool false)])) s
      = .error .validationError
    ∧ on_message cfg pub (.parsed (.obj [("volume", .bool true)])) s
      = .ok (pushEvent s (.logError .validationError))
    ∧ on_message cfg pub (.parsed (.obj [("volume", .bool false)])) s
      = .ok (pushEvent s (.logError .validationError)) :=
  ⟨rfl, rfl, rfl, rfl⟩

end Mqttrdc
